import Mathlib

/-!
Verification of the SF DBI permit sync pipeline core
(`src/schemas/inspector-analytics.schema.ts`): data validator,
the three transformers, and the dispatch/fallback coordinator
`PermitSyncService.processPermitData`.

The embedding models JavaScript runtime records: every field of an
incoming object may be absent (TypeScript types are erased at runtime,
and the validator explicitly guards every field), so record fields are
`Option`-valued.  JavaScript exceptions are modelled with `Except`,
JavaScript's `null` / `NaN` results for computed numeric fields with an
explicit `JsNum` type, and the side effects of the coordinator (channel
sends, fallback write) with an explicit trace in its result.
-/

namespace PermitSync

/-- JS truthiness of an optional string field: an absent field and the
empty string are falsy, every other string is truthy.  This is the
test the source performs with `if (permit.filed_date)` etc. -/
def strTruthy : Option String → Bool
  | none => false
  | some s => s != ""

/-- A runtime value found in one of the two cost fields: either a
JS number (modelled as an integer: every concrete value in this
development is integral and far below 2^53, so IEEE doubles represent
it exactly), or a present value of any non-number type, remembered
only by its JS truthiness.  Numeric coercion of non-number values is
not modelled; no property proved here depends on it. -/
inductive CostVal where
  | num (n : Int)
  | other (truthy : Bool)
  deriving DecidableEq

/-- JS truthiness of an optional cost field: absent is falsy, the
number 0 is falsy, non-zero numbers are truthy, a non-number value
carries its own truthiness. -/
def costTruthy : Option CostVal → Bool
  | none => false
  | some (.num n) => n != 0
  | some (.other t) => t

/-- Result of a computed numeric field as JavaScript produces it:
`null`, `NaN`, or an actual (integral) number. -/
inductive JsNum where
  | null
  | nan
  | int (n : Int)
  deriving DecidableEq

/-- Nested `location` object of a permit record.  All sub-fields may be
absent at runtime. -/
structure LocationRec where
  address : Option String
  block : Option String
  lot : Option String
  zipcode : Option String
  deriving DecidableEq

/-- Nested `contact_info` object of a permit record. -/
structure ContactRec where
  applicant_name : Option String
  applicant_address : Option String
  deriving DecidableEq

/-- Nested `inspector_info` object of a permit record. -/
structure InspectorRec where
  inspector_name : Option String
  inspection_date : Option String
  inspection_status : Option String
  deriving DecidableEq

/-- A runtime permit record as received by the worker.  Mirrors the
`PermitData` interface of the source; every field is `Option`-valued
because the functions under verification are exercised on arbitrary
runtime objects (including ones that fail validation), where any field
may be absent. -/
structure PermitData where
  id : Option String := none
  application_number : Option String := none
  permit_type : Option String := none
  status : Option String := none
  filed_date : Option String := none
  issued_date : Option String := none
  completed_date : Option String := none
  description : Option String := none
  estimated_cost : Option CostVal := none
  revised_cost : Option CostVal := none
  existing_use : Option String := none
  proposed_use : Option String := none
  plansets : Option Int := none
  location : Option LocationRec := none
  contact_info : Option ContactRec := none
  inspector_info : Option InspectorRec := none
  deriving DecidableEq

/-! Date parsing.  `Date.parse` is modelled on the ISO-8601 UTC profile
used throughout this repository, `YYYY-MM-DDTHH:MM:SSZ`; any other
string is unparseable (yields `none`, the model of `NaN`).  The result
is the epoch timestamp in milliseconds. -/

/-- Decimal digit value of a character, if it is a digit. -/
def digitVal (c : Char) : Option Nat :=
  if '0' ≤ c ∧ c ≤ '9' then some (c.toNat - '0'.toNat) else none

/-- Two-digit decimal number from two characters. -/
def twoDigits (a b : Char) : Option Nat := do
  let x ← digitVal a
  let y ← digitVal b
  pure (10 * x + y)

/-- Days from the epoch 1970-01-01 to the given Gregorian calendar day
(civil-calendar algorithm, valid for years 0..9999 with month already
checked to lie in 1..12). -/
def daysFromCivil (y m d : Int) : Int :=
  let y := if m ≤ 2 then y - 1 else y
  let era : Int := (if 0 ≤ y then y else y - 399) / 400
  let yoe : Int := y - era * 400
  let mp : Int := if 2 < m then m - 3 else m + 9
  let doy : Int := (153 * mp + 2) / 5 + d - 1
  let doe : Int := yoe * 365 + yoe / 4 - yoe / 100 + doy
  era * 146097 + doe - 719468

/-- Parse a character list of the exact shape `YYYY-MM-DDTHH:MM:SSZ`
into an epoch timestamp in milliseconds. -/
def parseIsoChars : List Char → Option Int
  | [y1, y2, y3, y4, '-', mo1, mo2, '-', d1, d2, 'T',
     h1, h2, ':', mi1, mi2, ':', s1, s2, 'Z'] => do
    let a ← digitVal y1
    let b ← digitVal y2
    let c ← digitVal y3
    let d ← digitVal y4
    let year : Nat := 1000 * a + 100 * b + 10 * c + d
    let month ← twoDigits mo1 mo2
    let day ← twoDigits d1 d2
    let hour ← twoDigits h1 h2
    let minute ← twoDigits mi1 mi2
    let second ← twoDigits s1 s2
    if 1 ≤ month ∧ month ≤ 12 ∧ 1 ≤ day ∧ day ≤ 31 ∧
        hour ≤ 23 ∧ minute ≤ 59 ∧ second ≤ 59 then
      pure (daysFromCivil year month day * 86400000 +
        (hour : Int) * 3600000 + (minute : Int) * 60000 + (second : Int) * 1000)
    else
      none
  | _ => none

/-- Model of `Date.parse` restricted to the ISO-8601 UTC timestamp
format; `none` models `NaN`. -/
def dateParse (s : String) : Option Int :=
  parseIsoChars s.data

/-- Result shape of `DataValidator.validatePermitData`. -/
structure ValidationResult where
  valid : Bool
  errors : List String
  deriving DecidableEq

/-- Date-format check of the validator: a truthy date field whose value
does not parse contributes the error `<field> must be a valid date`. -/
def dateFieldError (field : String) (v : Option String) : List String :=
  match v with
  | none => []
  | some s =>
    if s ≠ "" ∧ (dateParse s).isNone then [field ++ " must be a valid date"] else []

/-- Cost check of the validator: a cost field that is present (not
`undefined`) and is either not a number or strictly negative
contributes the error `<Name> cost must be a positive number`. -/
def costFieldError (name : String) (v : Option CostVal) : List String :=
  match v with
  | none => []
  | some (.num n) => if n < 0 then [name ++ " cost must be a positive number"] else []
  | some (.other _) => [name ++ " cost must be a positive number"]

/-- Location check of the validator: a missing location is one error;
a present location has its four sub-fields checked independently. -/
def locationErrors : Option LocationRec → List String
  | none => ["Location is required"]
  | some loc =>
    (if strTruthy loc.address then [] else ["Location address is required"])
    ++ (if strTruthy loc.block then [] else ["Location block is required"])
    ++ (if strTruthy loc.lot then [] else ["Location lot is required"])
    ++ (if strTruthy loc.zipcode then [] else ["Location zipcode is required"])

/-- Embedding of `DataValidator.validatePermitData`.  The input is
`none` for a `null`/`undefined` argument.  Errors are accumulated in
the exact push order of the source; the result is valid iff the error
list is empty. -/
def validatePermitData (data : Option PermitData) : ValidationResult :=
  match data with
  | none => ⟨false, ["Permit data is required"]⟩
  | some d =>
    let errors : List String :=
      (if strTruthy d.id then [] else ["Permit ID is required"])
      ++ (if strTruthy d.application_number then [] else ["Application number is required"])
      ++ (if strTruthy d.permit_type then [] else ["Permit type is required"])
      ++ (if strTruthy d.status then [] else ["Status is required"])
      ++ (if strTruthy d.filed_date then [] else ["Filed date is required"])
      ++ (if strTruthy d.description then [] else ["Description is required"])
      ++ locationErrors d.location
      ++ dateFieldError "filed_date" d.filed_date
      ++ dateFieldError "issued_date" d.issued_date
      ++ dateFieldError "completed_date" d.completed_date
      ++ costFieldError "Estimated" d.estimated_cost
      ++ costFieldError "Revised" d.revised_cost
    ⟨errors.isEmpty, errors⟩

/-! The three transformers of `PermitDataTransformer`. -/

/-- Ceiling division as `Math.ceil(a / b)` computes it for an integral
numerator and positive integral denominator (exact for every value in
range in IEEE doubles). -/
def ceilDiv (a b : Int) : Int := -((-a).fdiv b)

/-- Milliseconds per day, the divisor `1000 * 60 * 60 * 24`. -/
def dayMillis : Int := 86400000

/-- JS subtraction `a - b` on two cost values: numeric when both are
numbers, `NaN` otherwise (string coercion is not modelled). -/
def costSub : Option CostVal → Option CostVal → JsNum
  | some (.num a), some (.num b) => .int (a - b)
  | _, _ => .nan

/-- A JavaScript value, as needed to state which keys of a transformer
output are present and which read as `undefined`.  `extVal` stands for
a present value of a shape not otherwise modelled, remembered by its
truthiness. -/
inductive JVal where
  | undefined
  | jnull
  | str (s : String)
  | num (n : Int)
  | obj (fields : List (String × JVal))
  | extVal (truthy : Bool)

/-- Property read `v[k]` on an object: the stored value if the key is
there, else `undefined`.  Only applied to objects in this development. -/
def jGet (v : JVal) (k : String) : JVal :=
  match v with
  | .obj fields => (fields.lookup k).getD .undefined
  | _ => .undefined

/-- Embed an optional string field as a JS value. -/
def jStr : Option String → JVal
  | none => .undefined
  | some s => .str s

/-- Embed an optional cost field as a JS value. -/
def jCost : Option CostVal → JVal
  | none => .undefined
  | some (.num n) => .num n
  | some (.other t) => .extVal t

/-- Embed an optional integer field as a JS value. -/
def jInt : Option Int → JVal
  | none => .undefined
  | some n => .num n

/-- Embed the location object as a JS value. -/
def jLoc : Option LocationRec → JVal
  | none => .undefined
  | some l => .obj [("address", jStr l.address), ("block", jStr l.block),
      ("lot", jStr l.lot), ("zipcode", jStr l.zipcode)]

/-- Embed the contact object as a JS value. -/
def jContact : Option ContactRec → JVal
  | none => .undefined
  | some c => .obj [("applicant_name", jStr c.applicant_name),
      ("applicant_address", jStr c.applicant_address)]

/-- Embedding of `PermitDataTransformer.transformForIngestion`: a pure
regrouping object literal.  The `dates`, `costs` and `usage` group
objects are built unconditionally; absent source fields appear as
`undefined` members inside them.  No operation in the body can throw,
so the function is total. -/
def transformForIngestion (p : PermitData) : JVal :=
  .obj [
    ("permit_id", jStr p.id),
    ("application_number", jStr p.application_number),
    ("permit_type", jStr p.permit_type),
    ("status", jStr p.status),
    ("dates", .obj [("filed", jStr p.filed_date), ("issued", jStr p.issued_date),
       ("completed", jStr p.completed_date)]),
    ("description", jStr p.description),
    ("costs", .obj [("estimated", jCost p.estimated_cost),
       ("revised", jCost p.revised_cost)]),
    ("usage", .obj [("existing", jStr p.existing_use),
       ("proposed", jStr p.proposed_use)]),
    ("plansets", jInt p.plansets),
    ("location", jLoc p.location),
    ("contact", jContact p.contact_info)
  ]

/-- Detail payload of a lifecycle event: the filed event carries the
application number and permit type, the issued event carries the cost
pair, the completed event carries an empty object. -/
inductive EventDetails where
  | filedDetails (application_number : Option String) (permit_type : Option String)
  | issuedDetails (estimated : Option CostVal) (revised : Option CostVal)
  | completedDetails
  deriving DecidableEq

/-- One lifecycle event produced by `transformForEvents`. -/
structure EventRec where
  permit_id : Option String
  event_type : String
  event_date : Option String
  status : Option String
  details : EventDetails
  deriving DecidableEq

/-- Result shape of `transformForEvents`: an object with an `events`
array. -/
structure EventsResult where
  events : List EventRec
  deriving DecidableEq

/-- Embedding of `PermitDataTransformer.transformForEvents`: pushes a
filed, an issued and a completed event, in that order, each guarded by
the truthiness of its date field.  No operation in the body can throw,
so the function is total. -/
def transformForEvents (p : PermitData) : EventsResult :=
  ⟨(if strTruthy p.filed_date then
      [⟨p.id, "filed", p.filed_date, p.status,
        .filedDetails p.application_number p.permit_type⟩] else [])
   ++ (if strTruthy p.issued_date then
      [⟨p.id, "issued", p.issued_date, p.status,
        .issuedDetails p.estimated_cost p.revised_cost⟩] else [])
   ++ (if strTruthy p.completed_date then
      [⟨p.id, "completed", p.completed_date, p.status, .completedDetails⟩] else [])⟩

/-- Location subset carried by the analytics record. -/
structure LocationData where
  block : Option String
  lot : Option String
  zipcode : Option String
  deriving DecidableEq

/-- Timeline group of the analytics record. -/
structure TimelineData where
  filed_date : Option String
  issued_date : Option String
  completed_date : Option String
  processing_days : JsNum
  deriving DecidableEq

/-- Cost group of the analytics record. -/
structure CostData where
  estimated : Option CostVal
  revised : Option CostVal
  cost_variance : JsNum
  deriving DecidableEq

/-- Analytics record produced by `transformForAnalytics`;
`inspection_data` is `none` for the explicit `null` the source writes
via `permit.inspector_info || null`. -/
structure AnalyticsRec where
  permit_id : Option String
  permit_type : Option String
  location_data : LocationData
  timeline_data : TimelineData
  cost_data : CostData
  inspection_data : Option InspectorRec
  deriving DecidableEq

/-- Embedding of `PermitDataTransformer.transformForAnalytics`.  The
source reads `permit.location.block` (and `.lot`, `.zipcode`) without
any guard, so on a record whose `location` is absent the property read
throws a `TypeError`; that is the `Except.error` branch.
`processing_days` mirrors
`issued && filed ? Math.ceil((Date.parse(issued) - Date.parse(filed)) / 86400000) : null`,
where an unparseable date makes the arithmetic produce `NaN`;
`cost_variance` mirrors `revised && estimated ? revised - estimated : null`,
where the truthiness test treats the number 0 as absent. -/
def transformForAnalytics (p : PermitData) : Except String AnalyticsRec :=
  match p.location with
  | none => .error "TypeError: cannot read properties of undefined reading block"
  | some loc => .ok {
      permit_id := p.id
      permit_type := p.permit_type
      location_data := ⟨loc.block, loc.lot, loc.zipcode⟩
      timeline_data := ⟨p.filed_date, p.issued_date, p.completed_date,
        if strTruthy p.issued_date ∧ strTruthy p.filed_date then
          match dateParse (p.issued_date.getD ""), dateParse (p.filed_date.getD "") with
          | some ti, some tf => .int (ceilDiv (ti - tf) dayMillis)
          | _, _ => .nan
        else .null⟩
      cost_data := ⟨p.estimated_cost, p.revised_cost,
        if costTruthy p.revised_cost ∧ costTruthy p.estimated_cost then
          costSub p.revised_cost p.estimated_cost
        else .null⟩
      inspection_data := p.inspector_info }

/-! The dispatch/fallback coordinator `PermitSyncService.processPermitData`. -/

deriving instance DecidableEq for Except

/-- Settlement of the three channel sends and of the fallback write for
one invocation: each is fulfilled (`ok`) or rejected with a reason.
These are inputs of the model because the channels and the store are
external collaborators. -/
structure ChannelOutcomes where
  ingestion : Except String Unit
  events : Except String Unit
  analytics : Except String Unit
  fallback : Except String Unit
  deriving DecidableEq

/-- Error string pushed for a rejected channel send. -/
def channelErrorMsg (name reason : String) : String :=
  "Failed to send to " ++ name ++ " pipeline: " ++ reason

/-- Error list contributed by one settled channel send. -/
def channelErrors (name : String) : Except String Unit → List String
  | .ok _ => []
  | .error r => [channelErrorMsg name r]

/-- Result of one `processPermitData` invocation together with an
explicit trace of its side effects: `sentTo` lists the channels a send
was issued to (in dispatch order) and `fallbackAttempted` records
whether the D1 fallback write was tried. -/
structure ProcessOutcome where
  success : Bool
  errors : List String
  sentTo : List String
  fallbackAttempted : Bool
  deriving DecidableEq

/-- Embedding of `PermitSyncService.processPermitData`.  Invalid input
returns immediately with the validator's errors and no side effects.
Otherwise all three sends are issued (`Promise.allSettled`), a rejected
send pushes its named error and clears `allSuccessful`, the fallback is
attempted exactly when some send failed and pushes its own error when
it too fails, and the returned flag is the source's
`allSuccessful || errors.length === 0`. -/
def processPermitData (data : Option PermitData) (oc : ChannelOutcomes) :
    ProcessOutcome :=
  let validation := validatePermitData data
  if validation.valid then
    let chanErrs := channelErrors "ingestion" oc.ingestion
      ++ channelErrors "events" oc.events
      ++ channelErrors "analytics" oc.analytics
    let allSuccessful := chanErrs.isEmpty
    let errors :=
      if allSuccessful then chanErrs
      else chanErrs ++ (match oc.fallback with
        | .ok _ => []
        | .error e => ["D1 fallback also failed: " ++ e])
    ⟨allSuccessful || errors.isEmpty, errors, ["ingestion", "events", "analytics"],
      !allSuccessful⟩
  else
    ⟨false, validation.errors, [], false⟩

/-! Projections and claim-level predicates used to state properties. -/

/-- The cost-field condition the validator rejects: the field is
present (not `undefined`) and its value is either not a number or a
strictly negative number.  Zero and positive numbers, and an absent
field, do not violate it. -/
def costViolation : Option CostVal → Bool
  | none => false
  | some (.num n) => n < 0
  | some (.other _) => true

/-- The `processing_days` value of the analytics record, when the
transformer returns at all. -/
def processingDaysOf (p : PermitData) : Option JsNum :=
  (transformForAnalytics p).toOption.map (fun a => a.timeline_data.processing_days)

/-- The `cost_variance` value of the analytics record, when the
transformer returns at all. -/
def costVarianceOf (p : PermitData) : Option JsNum :=
  (transformForAnalytics p).toOption.map (fun a => a.cost_data.cost_variance)

/-- A record with no fields at all (`{}` at runtime). -/
def emptyPermit : PermitData := {}

/-- A fully populated, valid location object. -/
def sampleLocation : LocationRec :=
  ⟨some "123 Main St", some "1234", some "056", some "94102"⟩

/-- A minimal valid permit record: exactly the required fields. -/
def sampleValid : PermitData :=
  { id := some "PERM-123456", application_number := some "APP-2023-001",
    permit_type := some "Building", status := some "Filed",
    filed_date := some "2023-01-15T00:00:00Z",
    description := some "Test permit", location := some sampleLocation }

/-- Valid record whose issued date lies before its filed date. -/
def sampleReversedDates : PermitData :=
  { sampleValid with filed_date := some "2023-02-01T00:00:00Z",
                     issued_date := some "2023-01-01T00:00:00Z" }

/-- Record whose filed date is present but unparseable while the
issued date parses. -/
def sampleUnparseableDate : PermitData :=
  { sampleValid with filed_date := some "not-a-date",
                     issued_date := some "2023-01-01T00:00:00Z" }

/-- The specification's processing-days example: filed 2023-01-01,
issued 2023-01-31. -/
def sampleThirtyDays : PermitData :=
  { sampleValid with filed_date := some "2023-01-01T00:00:00Z",
                     issued_date := some "2023-01-31T00:00:00Z" }

/-- Record with a zero estimated cost and a positive revised cost. -/
def sampleZeroCost : PermitData :=
  { sampleValid with estimated_cost := some (.num 0),
                     revised_cost := some (.num 55000) }

/-- The specification's cost-variance example: estimated 50000,
revised 55000. -/
def sampleCosts : PermitData :=
  { sampleValid with estimated_cost := some (.num 50000),
                     revised_cost := some (.num 55000) }

/-- All three channels fulfilled, fallback fulfilled. -/
def ocAllOk : ChannelOutcomes := ⟨.ok (), .ok (), .ok (), .ok ()⟩

/-- Ingestion channel rejected, the others fulfilled, fallback
fulfilled. -/
def ocIngestionFail : ChannelOutcomes := ⟨.error "boom", .ok (), .ok (), .ok ()⟩

/-- Events channel rejected, the others fulfilled, fallback
fulfilled. -/
def ocEventsFail : ChannelOutcomes := ⟨.ok (), .error "down", .ok (), .ok ()⟩

/-- A minimal valid permit record parametrized by its required field
values; every optional field is absent. -/
def minimalRecord (i appn pt st fd de addr blk lt zp : String) : PermitData :=
  { id := some i, application_number := some appn, permit_type := some pt,
    status := some st, filed_date := some fd, description := some de,
    location := some ⟨some addr, some blk, some lt, some zp⟩ }

/-! Helper lemmas. -/

/-- The validator's valid flag is by construction the emptiness of its
error list. -/
theorem validate_valid_eq (data : Option PermitData) :
    (validatePermitData data).valid = (validatePermitData data).errors.isEmpty := by
  cases data <;> rfl

/-- Membership in the conditional singleton produced by one
skipped-or-pushed validator check. -/
theorem mem_skip_push {c : Prop} [Decidable c] {a x : String} :
    a ∈ (if c then ([] : List String) else [x]) ↔ ¬c ∧ a = x := by
  split <;> simp_all

/-- Characterization of the date-format errors. -/
theorem mem_dateFieldError {a f : String} {v : Option String} :
    a ∈ dateFieldError f v ↔
      ∃ s, v = some s ∧ s ≠ "" ∧ (dateParse s).isNone = true ∧
        a = f ++ " must be a valid date" := by
  rcases v with _ | s
  · simp [dateFieldError]
  · simp only [dateFieldError]
    split <;> rename_i hcond <;> simp_all

/-- Characterization of the cost errors. -/
theorem mem_costFieldError {a nm : String} {v : Option CostVal} :
    a ∈ costFieldError nm v ↔
      costViolation v = true ∧ a = nm ++ " cost must be a positive number" := by
  rcases v with _ | cv
  · simp [costFieldError, costViolation]
  · rcases cv with n | t
    · simp only [costFieldError, costViolation]
      split <;> simp_all
    · simp [costFieldError, costViolation]

/-- Characterization of the location errors. -/
theorem mem_locationErrors {a : String} {v : Option LocationRec} :
    a ∈ locationErrors v ↔
      (v = none ∧ a = "Location is required") ∨
      ∃ loc, v = some loc ∧
        ((¬ strTruthy loc.address ∧ a = "Location address is required") ∨
         (¬ strTruthy loc.block ∧ a = "Location block is required") ∨
         (¬ strTruthy loc.lot ∧ a = "Location lot is required") ∨
         (¬ strTruthy loc.zipcode ∧ a = "Location zipcode is required")) := by
  rcases v with _ | loc <;> simp [locationErrors, mem_skip_push]

/-! Claims about the dispatch/fallback coordinator. -/

/-- C2: for every input record and every combination of channel and
fallback outcomes, `processPermitData` reports success exactly when
its returned error list is empty. -/
theorem claim2_success_iff_no_errors (data : Option PermitData) (oc : ChannelOutcomes) :
    (processPermitData data oc).success = true ↔
      (processPermitData data oc).errors = [] := by
  by_cases hv : (validatePermitData data).valid
  · obtain ⟨i, e, a, f⟩ := oc
    cases i <;> cases e <;> cases a <;> cases f <;>
      simp [processPermitData, hv, channelErrors]
  · rw [Bool.not_eq_true] at hv
    have h2 := validate_valid_eq data
    rw [hv] at h2
    have hne : (validatePermitData data).errors ≠ [] := by
      intro hnil
      rw [hnil] at h2
      simp at h2
    simp [processPermitData, hv, hne]

/-- C9: when validation fails, `processPermitData` returns immediately
with success false and exactly the validator's error list, issues no
channel send and attempts no fallback write. -/
theorem claim9_invalid_terminal (data : Option PermitData) (oc : ChannelOutcomes)
    (h : (validatePermitData data).valid = false) :
    processPermitData data oc =
      ⟨false, (validatePermitData data).errors, [], false⟩ := by
  simp [processPermitData, h]

/-- Witness for C9: a `null` input fails validation and the coordinator
returns its single validation error, contacting nothing. -/
theorem claim9_witness :
    (validatePermitData none).valid = false ∧
    processPermitData none ocAllOk =
      ⟨false, ["Permit data is required"], [], false⟩ :=
  ⟨by decide, (claim9_invalid_terminal none ocAllOk (by decide)).trans (by decide)⟩

/-- C1 counterexample: on a valid record with the ingestion send
rejected and the fallback fulfilled, the coordinator reports
success = false (the claim asserts success = true in exactly this
situation), with the channel's named error in the list. -/
theorem claim1_counterexample :
    (processPermitData (some sampleValid) ocIngestionFail).success = false ∧
    (processPermitData (some sampleValid) ocIngestionFail).errors =
      ["Failed to send to ingestion pipeline: boom"] ∧
    ocIngestionFail.fallback = Except.ok () := by decide

/-- C1 amended: for every valid record where at least one channel send
fails and the fallback upsert succeeds, `processPermitData` returns
overall success = false — the channel error stays in the error list,
so the `allSuccessful || errors.length === 0` flag cannot be true —
and the fallback write is attempted. -/
theorem claim1_amended (data : Option PermitData) (oc : ChannelOutcomes)
    (hvalid : (validatePermitData data).valid = true)
    (hfail : ¬(oc.ingestion = Except.ok () ∧ oc.events = Except.ok () ∧
      oc.analytics = Except.ok ()))
    (hfb : oc.fallback = Except.ok ()) :
    (processPermitData data oc).success = false ∧
    (processPermitData data oc).fallbackAttempted = true ∧
    (∀ r, oc.ingestion = Except.error r →
      channelErrorMsg "ingestion" r ∈ (processPermitData data oc).errors) ∧
    (∀ r, oc.events = Except.error r →
      channelErrorMsg "events" r ∈ (processPermitData data oc).errors) ∧
    (∀ r, oc.analytics = Except.error r →
      channelErrorMsg "analytics" r ∈ (processPermitData data oc).errors) := by
  obtain ⟨i, e, a, f⟩ := oc
  cases i <;> cases e <;> cases a <;>
    simp_all [processPermitData, hvalid, channelErrors]

/-- Witness for C1 amended: a concrete valid record with the events
channel rejected and the fallback fulfilled. -/
theorem claim1_witness :
    (processPermitData (some sampleValid) ocEventsFail).success = false ∧
    (processPermitData (some sampleValid) ocEventsFail).fallbackAttempted = true ∧
    channelErrorMsg "events" "down" ∈
      (processPermitData (some sampleValid) ocEventsFail).errors := by
  have h := claim1_amended (some sampleValid) ocEventsFail (by decide) (by decide) rfl
  exact ⟨h.1, h.2.1, h.2.2.2.1 "down" rfl⟩

/-! Claims about the transformers. -/

/-- The source's `Math.ceil` of a millisecond difference divided by
`dayMillis` is the exact rational ceiling. -/
theorem ceilDiv_dayMillis_eq (a : Int) :
    ceilDiv a dayMillis = ⌈(a : ℚ) / 86400000⌉ := by
  have h1 : (-a).fdiv dayMillis = (-a) / ((86400000 : Nat) : Int) :=
    Int.fdiv_eq_ediv _ (by norm_num [dayMillis])
  rw [ceilDiv, h1,
    show ((a : ℚ) / 86400000) = -((((-a : Int) : ℚ)) / ((86400000 : Nat) : ℚ)) by
      push_cast; ring]
  rw [Int.ceil_neg, Rat.floor_intCast_div_natCast]

/-- C3 counterexample: `transformForAnalytics` applied to the empty
record `{}` throws a `TypeError` on the unguarded `permit.location.block`
read, so it is not total over records with absent values. -/
theorem claim3_counterexample :
    transformForAnalytics emptyPermit =
      Except.error "TypeError: cannot read properties of undefined reading block" := rfl

/-- C3 amended: `transformForIngestion` and `transformForEvents` are
total over arbitrary records (their bodies contain no throwing
operation), but `transformForAnalytics` returns normally exactly when
the record's `location` is present; with `location` absent it throws. -/
theorem claim3_amended (p : PermitData) :
    (∃ a, transformForAnalytics p = Except.ok a) ↔ p.location ≠ none := by
  rcases h : p.location with _ | loc <;> simp [transformForAnalytics, h]

/-- C4 counterexample: with issued before filed the code yields the
signed ceiling −31, not the absolute-difference value 31 the claim
demands; with a present but unparseable filed date it yields `NaN`,
not the `null` absence-marker the claim demands. -/
theorem claim4_counterexample :
    processingDaysOf sampleReversedDates = some (JsNum.int (-31)) ∧
    JsNum.int (-31) ≠ JsNum.int 31 ∧
    processingDaysOf sampleUnparseableDate = some JsNum.nan ∧
    JsNum.nan ≠ JsNum.null := by decide

/-- C4 amended: on a record whose location is present,
`processing_days` is the calendar-day ceiling of the signed difference
issued − filed when both date fields are set, non-empty and parse
(filed 2023-01-01 / issued 2023-01-31 give 30, filed 2023-01-15 /
issued 2023-02-01 give 17); it is `NaN` when both are set and
non-empty but either fails to parse; and it is `null` when either is
absent or empty. -/
theorem claim4_amended (p : PermitData) (h : p.location.isSome = true) :
    (∀ si sf ti tf, p.issued_date = some si → p.filed_date = some sf →
        si ≠ "" → sf ≠ "" → dateParse si = some ti → dateParse sf = some tf →
        processingDaysOf p = some (JsNum.int ⌈((ti : ℚ) - (tf : ℚ)) / 86400000⌉)) ∧
    (∀ si sf, p.issued_date = some si → p.filed_date = some sf →
        si ≠ "" → sf ≠ "" → (dateParse si = none ∨ dateParse sf = none) →
        processingDaysOf p = some JsNum.nan) ∧
    ((strTruthy p.issued_date = false ∨ strTruthy p.filed_date = false) →
        processingDaysOf p = some JsNum.null) := by
  obtain ⟨loc, hloc⟩ := Option.isSome_iff_exists.mp h
  refine ⟨?_, ?_, ?_⟩
  · intro si sf ti tf hsi hsf hsi0 hsf0 hpi hpf
    simp [processingDaysOf, transformForAnalytics, Except.toOption, hloc, hsi, hsf,
      strTruthy, bne_iff_ne, hsi0, hsf0, hpi, hpf, ceilDiv_dayMillis_eq, Int.cast_sub]
  · intro si sf hsi hsf hsi0 hsf0 hbad
    rcases hbad with hbad | hbad <;>
      simp [processingDaysOf, transformForAnalytics, Except.toOption, hloc, hsi, hsf,
        strTruthy, bne_iff_ne, hsi0, hsf0, hbad]
  · intro hab
    rcases hab with hab | hab <;>
      simp [processingDaysOf, transformForAnalytics, Except.toOption, hloc, hab]

/-- Witness for C4 amended: the specification's first example record
(filed 2023-01-01, issued 2023-01-31) computes 30 processing days. -/
theorem claim4_witness :
    processingDaysOf sampleThirtyDays = some (JsNum.int 30) := by
  have h := (claim4_amended sampleThirtyDays (by decide)).1
    "2023-01-31T00:00:00Z" "2023-01-01T00:00:00Z" 1675123200000 1672531200000
    rfl rfl (by decide) (by decide) (by decide) (by decide)
  rw [h]
  norm_num [Int.ceil_eq_iff]

/-- C5 counterexample: with estimated cost 0 and revised cost 55000
(both fields present) the code's truthiness test treats 0 as missing
and yields `null`, not the 55000 difference the claim demands. -/
theorem claim5_counterexample :
    costVarianceOf sampleZeroCost = some JsNum.null ∧
    JsNum.null ≠ JsNum.int 55000 := by decide

/-- C5 amended: on a record whose location is present, `cost_variance`
is revised − estimated when both cost fields are present with non-zero
numeric values (estimated 50000 / revised 55000 give 5000), and `null`
whenever either cost field is absent or zero (JS truthiness treats the
number 0 like a missing field). -/
theorem claim5_amended (p : PermitData) (h : p.location.isSome = true) :
    (∀ e r, p.estimated_cost = some (.num e) → p.revised_cost = some (.num r) →
        e ≠ 0 → r ≠ 0 → costVarianceOf p = some (JsNum.int (r - e))) ∧
    ((costTruthy p.estimated_cost = false ∨ costTruthy p.revised_cost = false) →
        costVarianceOf p = some JsNum.null) := by
  obtain ⟨loc, hloc⟩ := Option.isSome_iff_exists.mp h
  constructor
  · intro e r he hr he0 hr0
    simp [costVarianceOf, transformForAnalytics, Except.toOption, hloc, he, hr,
      costTruthy, bne_iff_ne, he0, hr0, costSub]
  · intro hab
    rcases hab with hab | hab <;>
      simp [costVarianceOf, transformForAnalytics, Except.toOption, hloc, hab]

/-- Witness for C5 amended: the specification's example record
(estimated 50000, revised 55000) computes a 5000 variance. -/
theorem claim5_witness :
    costVarianceOf sampleCosts = some (JsNum.int 5000) := by
  have h := (claim5_amended sampleCosts (by decide)).1 50000 55000 rfl rfl
    (by norm_num) (by norm_num)
  rw [h]
  norm_num

/-- C6 counterexample: on a minimal valid record the output's `costs`
group is a present object whose members read as `undefined` — it does
not itself read as `undefined`/missing, contrary to the claim that the
optional groups are entirely absent. -/
theorem claim6_counterexample :
    jGet (transformForIngestion sampleValid) "costs" =
      JVal.obj [("estimated", JVal.undefined), ("revised", JVal.undefined)] ∧
    jGet (transformForIngestion sampleValid) "costs" ≠ JVal.undefined :=
  ⟨rfl, fun h => JVal.noConfusion h⟩

/-- C6 amended: for every minimal valid record, `contact` and the
fields inside the optional groups read as `undefined` — in particular
`dates.issued` and `dates.completed` are absent — but the `costs` and
`usage` group objects themselves are always present (as objects whose
members are all `undefined`), not absent. -/
theorem claim6_amended (i appn pt st fd de addr blk lt zp : String)
    (_h : (validatePermitData (some (minimalRecord i appn pt st fd de addr blk lt zp))).valid
      = true) :
    jGet (transformForIngestion (minimalRecord i appn pt st fd de addr blk lt zp))
        "contact" = JVal.undefined ∧
    jGet (jGet (transformForIngestion (minimalRecord i appn pt st fd de addr blk lt zp))
        "dates") "issued" = JVal.undefined ∧
    jGet (jGet (transformForIngestion (minimalRecord i appn pt st fd de addr blk lt zp))
        "dates") "completed" = JVal.undefined ∧
    jGet (transformForIngestion (minimalRecord i appn pt st fd de addr blk lt zp))
        "costs" = JVal.obj [("estimated", JVal.undefined), ("revised", JVal.undefined)] ∧
    jGet (transformForIngestion (minimalRecord i appn pt st fd de addr blk lt zp))
        "usage" = JVal.obj [("existing", JVal.undefined), ("proposed", JVal.undefined)] :=
  ⟨rfl, rfl, rfl, rfl, rfl⟩

/-- Witness for C6 amended at a concrete minimal valid record. -/
theorem claim6_witness :
    jGet (transformForIngestion (minimalRecord "PERM-1" "APP-1" "Building" "Filed"
        "2023-01-15T00:00:00Z" "Basic permit" "123 Main St" "1234" "056" "94102"))
      "contact" = JVal.undefined ∧
    jGet (transformForIngestion (minimalRecord "PERM-1" "APP-1" "Building" "Filed"
        "2023-01-15T00:00:00Z" "Basic permit" "123 Main St" "1234" "056" "94102"))
      "costs" = JVal.obj [("estimated", JVal.undefined), ("revised", JVal.undefined)] := by
  have h := claim6_amended "PERM-1" "APP-1" "Building" "Filed"
    "2023-01-15T00:00:00Z" "Basic permit" "123 Main St" "1234" "056" "94102" (by decide)
  exact ⟨h.1, h.2.2.2.1⟩

/-- C7: `transformForEvents` emits a lifecycle event exactly for the
date fields the record carries (present in the sense the code tests
presence: the field is set and non-empty), always in the fixed order
filed, issued, completed. -/
theorem claim7_events_iff_present (p : PermitData) :
    (transformForEvents p).events.map (fun e => e.event_type) =
      (if strTruthy p.filed_date then ["filed"] else [])
      ++ (if strTruthy p.issued_date then ["issued"] else [])
      ++ (if strTruthy p.completed_date then ["completed"] else []) := by
  unfold transformForEvents
  rcases h1 : strTruthy p.filed_date <;> rcases h2 : strTruthy p.issued_date <;>
    rcases h3 : strTruthy p.completed_date <;> simp [h1, h2, h3]

/-! Claims about the validator. -/

/-- C8: for every non-null candidate, each required top-level field is
checked independently and unconditionally — its named error appears in
the output exactly when that field is missing (falsy), regardless of
every other field — and the record carrying only an identifier yields
exactly the six named errors for application number, permit type,
status, filed date, description and location, in stable order. -/
theorem claim8_required_field_errors (d : PermitData) :
    ("Permit ID is required" ∈ (validatePermitData (some d)).errors ↔
      strTruthy d.id = false) ∧
    ("Application number is required" ∈ (validatePermitData (some d)).errors ↔
      strTruthy d.application_number = false) ∧
    ("Permit type is required" ∈ (validatePermitData (some d)).errors ↔
      strTruthy d.permit_type = false) ∧
    ("Status is required" ∈ (validatePermitData (some d)).errors ↔
      strTruthy d.status = false) ∧
    ("Filed date is required" ∈ (validatePermitData (some d)).errors ↔
      strTruthy d.filed_date = false) ∧
    ("Description is required" ∈ (validatePermitData (some d)).errors ↔
      strTruthy d.description = false) ∧
    ("Location is required" ∈ (validatePermitData (some d)).errors ↔
      d.location = none) ∧
    (validatePermitData (some { id := some "PERM-123456" })).errors =
      ["Application number is required", "Permit type is required",
       "Status is required", "Filed date is required", "Description is required",
       "Location is required"] := by
  refine ⟨?_, ?_, ?_, ?_, ?_, ?_, ?_, by decide⟩ <;>
    simp +decide [validatePermitData, List.mem_append, mem_skip_push,
      mem_locationErrors, mem_dateFieldError, mem_costFieldError]

/-- C10: for every candidate record and each cost field, the named
error `<Name> cost must be a positive number` is produced exactly when
the field is present with a value that is not a number or is strictly
negative; zero and positive values, and an absent field, produce no
error. -/
theorem claim10_cost_errors (d : PermitData) :
    ("Estimated cost must be a positive number" ∈ (validatePermitData (some d)).errors ↔
      costViolation d.estimated_cost = true) ∧
    ("Revised cost must be a positive number" ∈ (validatePermitData (some d)).errors ↔
      costViolation d.revised_cost = true) ∧
    costViolation (some (.num 0)) = false ∧
    (∀ n : Int, 0 ≤ n → costViolation (some (.num n)) = false) ∧
    costViolation none = false := by
  refine ⟨?_, ?_, by decide, ?_, by decide⟩
  · simp +decide [validatePermitData, List.mem_append, mem_skip_push,
      mem_locationErrors, mem_dateFieldError, mem_costFieldError]
  · simp +decide [validatePermitData, List.mem_append, mem_skip_push,
      mem_locationErrors, mem_dateFieldError, mem_costFieldError]
  · intro n hn
    simp [costViolation]
    omega

end PermitSync
